import Mathlib

/-!
Verification of the traefik-plugin-blockip request-admission filter.

The definitions below are a shallow embedding of the Go source in
`main.go` (package traefik_plugin_blockip) together with the pieces of
the Go standard library (`strings`, `net`) that the request path calls.
Strings are modelled as Lean strings, processed as lists of characters;
the relevant standard-library inputs are ASCII, where Go's byte-wise
scanning and our character-wise scanning coincide.
-/

namespace BlockIpPlugin

/-! ## Go `strings` helpers used by the request path -/

/-- Character class of Go's `unicode.IsSpace`, which `strings.TrimSpace`
trims from both ends. -/
def goIsSpace (c : Char) : Bool :=
  c == ' ' || c == '\t' || c == '\n' || c == '\x0b' || c == '\x0c' || c == '\r' ||
  c.val == 0x85 || c.val == 0xA0 || c.val == 0x1680 ||
  (0x2000 ≤ c.val && c.val ≤ 0x200A) ||
  c.val == 0x2028 || c.val == 0x2029 || c.val == 0x202F ||
  c.val == 0x205F || c.val == 0x3000

/-- Go `strings.TrimSpace`. -/
def goTrimSpace (s : String) : String :=
  String.mk (((s.data.dropWhile goIsSpace).reverse.dropWhile goIsSpace).reverse)

/-- Go `strings.Split s sep` for a one-character separator: splits at every
occurrence, never returns an empty list (`Split "" sep = [""]`). -/
def splitOnChar (sep : Char) : List Char → List (List Char)
  | [] => [[]]
  | c :: cs =>
    if c == sep then [] :: splitOnChar sep cs
    else
      match splitOnChar sep cs with
      | [] => [[c]]
      | g :: gs => (c :: g) :: gs

/-- Index of the first occurrence of a character (Go `strings.IndexByte`). -/
def firstIdx : List Char → Char → Option Nat
  | [], _ => none
  | c :: cs, t => if c == t then some 0 else (firstIdx cs t).map (· + 1)

/-- Index of the last occurrence of a character (Go's `last` helper in
`net/ipsock.go`). -/
def lastIdx (l : List Char) (t : Char) : Option Nat :=
  (firstIdx l.reverse t).map (fun i => l.length - 1 - i)

/-- Go `net.SplitHostPort`.  Returns `none` exactly where Go returns an
error (missing port, too many colons, bracket problems); getClientIP only
distinguishes success from error. -/
def goSplitHostPort (hostport : String) : Option (String × String) :=
  let cs := hostport.data
  match lastIdx cs ':' with
  | none => none
  | some i =>
    match cs with
    | [] => none
    | c0 :: _ =>
      if c0 == '[' then
        match firstIdx cs ']' with
        | none => none
        | some endi =>
          if endi + 1 == cs.length then none
          else if endi + 1 == i then
            if (firstIdx (cs.drop 1) '[').isSome then none
            else if (firstIdx (cs.drop (endi + 1)) ']').isSome then none
            else some (String.mk ((cs.drop 1).take (endi - 1)), String.mk (cs.drop (i + 1)))
          else none
      else
        let host := cs.take i
        if (firstIdx host ':').isSome then none
        else if (firstIdx cs '[').isSome then none
        else if (firstIdx cs ']').isSome then none
        else some (String.mk host, String.mk (cs.drop (i + 1)))

/-! ## Go `net` address parsing (`netip.ParseAddr`, `net.ParseIP`,
`net.ParseCIDR`, `net.IPNet.Contains`) -/

/-- Hexadecimal digit test used by `netip.parseIPv6`. -/
def isHexDigit (c : Char) : Bool :=
  c.isDigit || ('a' ≤ c && c ≤ 'f') || ('A' ≤ c && c ≤ 'F')

/-- Value of a hexadecimal digit. -/
def hexVal (c : Char) : Nat :=
  if c.isDigit then c.toNat - 48
  else if 'a' ≤ c && c ≤ 'f' then c.toNat - 87
  else c.toNat - 55

/-- One dotted-decimal field of `netip.parseIPv4`: nonempty, all digits,
no leading zero, value at most 255. -/
def parseIPv4Field (cs : List Char) : Option Nat :=
  if cs.isEmpty then none
  else if !(cs.all Char.isDigit) then none
  else if decide (1 < cs.length) && (cs.headD '0' == '0') then none
  else
    let v := cs.foldl (fun a c => a * 10 + (c.toNat - 48)) 0
    if v ≤ 255 then some v else none

/-- `netip.parseIPv4` on a character list: exactly four valid fields
separated by dots; yields the four address bytes. -/
def parseIPv4Chars (cs : List Char) : Option (List Nat) :=
  match (splitOnChar '.' cs).mapM parseIPv4Field with
  | some [a, b, c, d] => some [a, b, c, d]
  | _ => none

/-- `netip.parseIPv4` on a string: the 4 address bytes of a dotted quad. -/
def goParseIPv4 (s : String) : Option (List Nat) :=
  parseIPv4Chars s.data

/-- Ellipsis expansion at the end of `netip.parseIPv6`: when fewer than 16
bytes were parsed, the `::` position receives the missing zero bytes. -/
def parseIPv6Finish (i : Nat) (ip : List Nat) (ellipsis : Option Nat) :
    Option (List Nat) :=
  if i < 16 then
    match ellipsis with
    | none => none
    | some e => some (ip.take e ++ List.replicate (16 - i) 0 ++ ip.drop e)
  else if ellipsis.isSome then none
  else some ip

/-- Main loop of `netip.parseIPv6`: repeatedly read a group of 1–4 hex
digits, or a trailing embedded IPv4 quad, tracking the position of a
single `::`.  `fuel` strictly dominates the length of `s`. -/
def parseIPv6Loop (fuel : Nat) (s : List Char) (i : Nat) (ip : List Nat)
    (ellipsis : Option Nat) : Option (List Nat) :=
  match fuel with
  | 0 => none
  | fuel + 1 =>
    if 16 ≤ i then
      if s.isEmpty then parseIPv6Finish i ip ellipsis else none
    else
      let digits := s.takeWhile isHexDigit
      let off := digits.length
      if off == 0 then none
      else if 4 < off then none
      else
        match s.drop off with
        | '.' :: _ =>
          if ellipsis.isNone && !(i == 12) then none
          else if 16 < i + 4 then none
          else
            match parseIPv4Chars s with
            | some quad => parseIPv6Finish (i + 4) (ip ++ quad) ellipsis
            | none => none
        | [] =>
          let acc := digits.foldl (fun a c => a * 16 + hexVal c) 0
          parseIPv6Finish (i + 2) (ip ++ [acc / 256, acc % 256]) ellipsis
        | ':' :: rest2 =>
          let acc := digits.foldl (fun a c => a * 16 + hexVal c) 0
          let ip2 := ip ++ [acc / 256, acc % 256]
          match rest2 with
          | [] => none
          | ':' :: rest3 =>
            if ellipsis.isSome then none
            else if rest3.isEmpty then parseIPv6Finish (i + 2) ip2 (some (i + 2))
            else parseIPv6Loop fuel rest3 (i + 2) ip2 (some (i + 2))
          | _ => parseIPv6Loop fuel rest2 (i + 2) ip2 ellipsis
        | _ => none

/-- `netip.parseIPv6` (zones rejected, as `net.ParseIP` does): the 16
address bytes. -/
def goParseIPv6 (cs : List Char) : Option (List Nat) :=
  if cs.contains '%' then none
  else
    match cs with
    | ':' :: ':' :: rest =>
      if rest.isEmpty then some (List.replicate 16 0)
      else parseIPv6Loop (rest.length + 1) rest 0 [] (some 0)
    | _ => parseIPv6Loop (cs.length + 1) cs 0 [] none

/-- The dispatch scan of `netip.ParseAddr`: the first of `.`, `:`, `%`
decides the address family; none of them means failure. -/
def firstSpecial : List Char → Option Char
  | [] => none
  | c :: cs => if c == '.' || c == ':' || c == '%' then some c else firstSpecial cs

/-- Go `net.ParseIP`: `none` where Go returns nil.  An IPv4 address is
returned in its 16-byte IPv4-in-IPv6 form, exactly as `net.ParseIP`
does. -/
def goParseIP (s : String) : Option (List Nat) :=
  match firstSpecial s.data with
  | some '.' => (goParseIPv4 s).map (fun q => List.replicate 10 0 ++ [255, 255] ++ q)
  | some ':' => goParseIPv6 s.data
  | _ => none

/-- A parsed CIDR network as produced by `net.ParseCIDR`: the masked
network bytes and the mask bytes (4 each for IPv4 notation, 16 each for
IPv6 notation). -/
structure IPNet where
  network : List Nat
  mask : List Nat
deriving DecidableEq

/-- Go `net.CIDRMask ones (8*nbytes)` as a byte list. -/
def cidrMask (ones nbytes : Nat) : List Nat :=
  (List.range nbytes).map (fun idx =>
    if (idx + 1) * 8 ≤ ones then 255
    else if ones ≤ idx * 8 then 0
    else 256 - Nat.pow 2 (8 - (ones - idx * 8)))

/-- Byte-wise AND of an address with a mask (Go `IP.Mask`). -/
def maskBytes (ip mask : List Nat) : List Nat :=
  List.zipWith (fun b m => b.land m) ip mask

/-- The decimal scan `dtoi` used by `net.ParseCIDR` on the text after the
slash: nonempty, all digits, and the value must not exceed the address
bit length (Go additionally caps huge values, which also fail here). -/
def parseMaskLen (cs : List Char) (bits : Nat) : Option Nat :=
  if cs.isEmpty then none
  else if !(cs.all Char.isDigit) then none
  else
    let n := cs.foldl (fun a c => a * 10 + (c.toNat - 48)) 0
    if n ≤ bits then some n else none

/-- Go `net.ParseCIDR`: split at the first slash, parse the address (its
notation fixes the bit length: 32 for dotted, 128 for colon form), parse
the prefix length, and return the masked network with its mask. -/
def goParseCIDR (s : String) : Option IPNet :=
  match firstIdx s.data '/' with
  | none => none
  | some i =>
    let addr := s.data.take i
    let maskStr := s.data.drop (i + 1)
    match firstSpecial addr with
    | some '.' =>
      match parseIPv4Chars addr with
      | none => none
      | some ip4 =>
        match parseMaskLen maskStr 32 with
        | none => none
        | some n => some ⟨maskBytes ip4 (cidrMask n 4), cidrMask n 4⟩
    | some ':' =>
      match goParseIPv6 addr with
      | none => none
      | some ip16 =>
        match parseMaskLen maskStr 128 with
        | none => none
        | some n => some ⟨maskBytes ip16 (cidrMask n 16), cidrMask n 16⟩
    | _ => none

/-- Go `IP.To4`: a 4-byte address itself, or the low 4 bytes of a 16-byte
IPv4-in-IPv6 address; `none` for a genuine IPv6 address. -/
def ipTo4 (ip : List Nat) : Option (List Nat) :=
  if ip.length == 4 then some ip
  else if ip.length == 16 && decide (ip.take 10 = List.replicate 10 0) &&
          (ip.getD 10 0 == 255) && (ip.getD 11 0 == 255) then
    some (ip.drop 12)
  else none

/-- Go `net.IPNet.Contains`, including the `networkNumberAndMask`
normalisation: an IPv4-convertible network compares over 4 bytes (a
16-byte mask keeps its last 4 bytes), and the candidate is converted via
`To4` first; a length mismatch is a non-match. -/
def ipnetContains (n : IPNet) (ip0 : List Nat) : Bool :=
  let nnm :=
    match ipTo4 n.network with
    | some ip4 => (ip4, if n.mask.length == 16 then n.mask.drop 12 else n.mask)
    | none => (n.network, n.mask)
  let ip := match ipTo4 ip0 with | some x => x | none => ip0
  if !(ip.length == nnm.1.length) then false
  else
    (List.zip (List.zip nnm.1 nnm.2) ip).all
      (fun p => p.1.1.land p.1.2 == p.2.land p.1.2)

/-! ## The plugin itself (`main.go`) -/

/-- `Config` from `main.go`. -/
structure Config where
  blockedIPs : List String
  blockedCIDRs : List String
  whitelistIPs : List String
  whitelistCIDRs : List String
  statusCode : Int
  message : String
  debug : Bool
  cacheTTL : Int
deriving DecidableEq

/-- `CreateConfig` from `main.go`: the default configuration. -/
def CreateConfig : Config :=
  { blockedIPs := [], blockedCIDRs := [], whitelistIPs := [], whitelistCIDRs := []
    statusCode := 403, message := "Access Denied", debug := false, cacheTTL := 300 }

/-- `CacheEntry` from `main.go`. -/
structure CacheEntry where
  status : String
  timestamp : Int
deriving DecidableEq

/-- The map inside `IPCache` (the `sync.RWMutex` guards concurrent access
and has no effect on values). -/
abbrev IPCacheMap := List (String × CacheEntry)

/-- `BlockIP` from `main.go`.  `next` and `config` are pointers in Go and
may be nil, modelled by `Option`. -/
structure BlockIP where
  next : Option Unit
  name : String
  config : Option Config
  cache : IPCacheMap

/-- `New` from `main.go`: unconditionally builds the instance with an
empty cache and returns a nil error, whatever the arguments are. -/
def New (next : Option Unit) (config : Option Config) (name : String) :
    Except String BlockIP :=
  Except.ok { next := next, name := name, config := config, cache := [] }

/-- An incoming request, restricted to what `ServeHTTP` reads: the values
that `req.Header.Get` returns for the three inspected headers (the empty
string when the header is absent) and `req.RemoteAddr`. -/
structure Request where
  xForwardedFor : String
  xRealIP : String
  cfConnectingIP : String
  remoteAddr : String
deriving DecidableEq

/-- The X-Forwarded-For block of `getClientIP`: when the header is
nonempty, split on commas and — the split being nonempty — return the
first segment trimmed; otherwise fall through. -/
def clientIPFromXFF (xff : String) : Option String :=
  if xff == "" then none
  else
    match splitOnChar ',' xff.data with
    | [] => none
    | ip :: _ => some (goTrimSpace (String.mk ip))

/-- `getClientIP` from `main.go`. -/
def getClientIP (req : Request) : String :=
  match clientIPFromXFF req.xForwardedFor with
  | some ip => ip
  | none =>
    if !(req.xRealIP == "") then goTrimSpace req.xRealIP
    else if !(req.cfConnectingIP == "") then goTrimSpace req.cfConnectingIP
    else if !(req.remoteAddr == "") then
      match goSplitHostPort req.remoteAddr with
      | some (host, _) => host
      | none => req.remoteAddr
    else ""

/-- `matchCIDR` from `main.go` (the debug branch only prints). -/
def matchCIDR (ip cidr : String) : Bool :=
  match goParseIP ip with
  | none => false
  | some parsedIP =>
    match goParseCIDR cidr with
    | none => false
    | some ipnet => ipnetContains ipnet parsedIP

/-- `isWhitelisted` from `main.go`: the direct-IP loop compares strings
with `==`, then the CIDR loop. -/
def isWhitelisted (cfg : Config) (ip : String) : Bool :=
  cfg.whitelistIPs.any (fun whiteIP => ip == whiteIP) ||
  cfg.whitelistCIDRs.any (fun cidr => matchCIDR ip cidr)

/-- `isBlocked` from `main.go`. -/
def isBlocked (cfg : Config) (ip : String) : Bool :=
  cfg.blockedIPs.any (fun blockedIP => ip == blockedIP) ||
  cfg.blockedCIDRs.any (fun cidr => matchCIDR ip cidr)

/-- The observable effect of one `ServeHTTP` call on its
`http.ResponseWriter` and downstream handler: whether `next.ServeHTTP`
was invoked, and the plugin's own `WriteHeader` and `Write` calls in
order. -/
structure ServeResult where
  nextCalled : Bool
  headerWrites : List Int
  bodyWrites : List String
deriving DecidableEq

/-- `ServeHTTP` from `main.go`, for an instance whose config pointer is
non-nil.  The instance's `cache` field is in scope (second argument) but
the source never reads or writes it, so it is returned unchanged. -/
def ServeHTTP (cfg : Config) (cache : IPCacheMap) (req : Request) :
    ServeResult × IPCacheMap :=
  let clientIP := getClientIP req
  if isWhitelisted cfg clientIP then
    (⟨true, [], []⟩, cache)
  else if isBlocked cfg clientIP then
    (⟨false, [cfg.statusCode], [cfg.message]⟩, cache)
  else
    (⟨true, [], []⟩, cache)

/-- A finalized rejection response on the wire. -/
structure WireResponse where
  status : Int
  contentType : String
  contentLength : Nat
  body : String
deriving DecidableEq

/-- Modelled from the spec: the hosting HTTP stack's response
finalization is not part of this repository; per the spec's wire contract
(one explicit status write, one body write, no handler-set headers), the
status is the written code, Content-Type is text/plain with utf-8
charset, Content-Length is the byte length of the body, and the body is
the written bytes.  Applied to a write trace, it is defined only when the
status and body were each written exactly once. -/
def finalizeWire (r : ServeResult) : Option WireResponse :=
  match r.headerWrites, r.bodyWrites with
  | [code], [body] =>
    some { status := code, contentType := "text/plain; charset=utf-8"
           contentLength := body.utf8ByteSize, body := body }
  | _, _ => none

/-- The client-resolution chain of amended claim C4, stated from its
words: the trimmed first X-Forwarded-For segment whenever that header is
nonempty (no validation, no fall-through on invalid text); else the
trimmed X-Real-IP if nonempty; else the trimmed CF-Connecting-IP if
nonempty; else the peer address with the port split off when
`SplitHostPort` succeeds and the raw peer address otherwise; else the
empty string. -/
def specResolveClient (req : Request) : String :=
  if !(req.xForwardedFor == "") then
    goTrimSpace (String.mk ((splitOnChar ',' req.xForwardedFor.data).headD []))
  else if !(req.xRealIP == "") then goTrimSpace req.xRealIP
  else if !(req.cfConnectingIP == "") then goTrimSpace req.cfConnectingIP
  else if !(req.remoteAddr == "") then
    match goSplitHostPort req.remoteAddr with
    | some (host, _) => host
    | none => req.remoteAddr
  else ""

/-! ## Helper lemmas -/

/-- The comma split of any string is a nonempty list. -/
theorem splitOnChar_ne_nil (sep : Char) (l : List Char) : splitOnChar sep l ≠ [] := by
  cases l with
  | nil => simp [splitOnChar]
  | cons c cs =>
    simp only [splitOnChar]
    split
    · simp
    · split <;> simp

/-- A parse failure on either side makes matchCIDR a non-match, not a
fault. -/
theorem matchCIDR_eq_false_of_parse (ip cidr : String)
    (h : goParseIP ip = none ∨ goParseCIDR cidr = none) :
    matchCIDR ip cidr = false := by
  unfold matchCIDR
  rcases h with h | h
  · simp [h]
  · cases hp : goParseIP ip <;> simp [hp, h]

/-! ## Claim theorems -/

/-- Claim C1: whitelist precedence — whenever the resolved client address
is whitelisted (exact entry or CIDR range), ServeHTTP invokes the
downstream handler and writes nothing itself, for every blocklist
configuration, including blocklists that also match that address. -/
theorem c1_whitelist_precedence (cfg : Config) (cache : IPCacheMap) (req : Request)
    (h : isWhitelisted cfg (getClientIP req) = true) :
    (ServeHTTP cfg cache req).1 = ⟨true, [], []⟩ := by
  simp [ServeHTTP, h]

/-- Witness for C1: address 192.168.1.50 is in the whitelist exact set
while the blocklist matches it both exactly and by range; the request is
forwarded. -/
theorem c1_whitelist_precedence_witness :
    isWhitelisted
      { CreateConfig with
          blockedIPs := ["192.168.1.50"], blockedCIDRs := ["192.168.0.0/16"],
          whitelistIPs := ["192.168.1.50"] }
      (getClientIP ⟨"", "", "", "192.168.1.50:1234"⟩) = true ∧
    (ServeHTTP
      { CreateConfig with
          blockedIPs := ["192.168.1.50"], blockedCIDRs := ["192.168.0.0/16"],
          whitelistIPs := ["192.168.1.50"] }
      [] ⟨"", "", "", "192.168.1.50:1234"⟩).1 = ⟨true, [], []⟩ :=
  ⟨by decide, c1_whitelist_precedence _ _ _ (by decide)⟩

/-- Claim C2: a blocked, non-whitelisted client is not forwarded; the
plugin writes exactly one status (the configured code) and exactly one
body (the configured message), and the finalized wire response carries
the text/plain utf-8 content type and a Content-Length equal to the byte
length of the message. -/
theorem c2_rejection_response (cfg : Config) (cache : IPCacheMap) (req : Request)
    (hb : isBlocked cfg (getClientIP req) = true)
    (hw : isWhitelisted cfg (getClientIP req) = false) :
    (ServeHTTP cfg cache req).1 = ⟨false, [cfg.statusCode], [cfg.message]⟩ ∧
    finalizeWire (ServeHTTP cfg cache req).1 =
      some ⟨cfg.statusCode, "text/plain; charset=utf-8",
            cfg.message.utf8ByteSize, cfg.message⟩ := by
  have h1 : (ServeHTTP cfg cache req).1 = ⟨false, [cfg.statusCode], [cfg.message]⟩ := by
    simp [ServeHTTP, hb, hw]
  exact ⟨h1, by rw [h1]; rfl⟩

/-- Witness for C2: the spec's own example — blockedIPs 203.0.113.50 with
X-Forwarded-For "203.0.113.50, 10.0.0.1" is rejected with the default
403 / "Access Denied". -/
theorem c2_rejection_response_witness :
    isBlocked { CreateConfig with blockedIPs := ["203.0.113.50"] }
      (getClientIP ⟨"203.0.113.50, 10.0.0.1", "", "", "10.0.0.1:80"⟩) = true ∧
    isWhitelisted { CreateConfig with blockedIPs := ["203.0.113.50"] }
      (getClientIP ⟨"203.0.113.50, 10.0.0.1", "", "", "10.0.0.1:80"⟩) = false ∧
    ((ServeHTTP { CreateConfig with blockedIPs := ["203.0.113.50"] } []
        ⟨"203.0.113.50, 10.0.0.1", "", "", "10.0.0.1:80"⟩).1 =
      ⟨false, [403], ["Access Denied"]⟩ ∧
     finalizeWire (ServeHTTP { CreateConfig with blockedIPs := ["203.0.113.50"] } []
        ⟨"203.0.113.50, 10.0.0.1", "", "", "10.0.0.1:80"⟩).1 =
      some ⟨403, "text/plain; charset=utf-8", 13, "Access Denied"⟩) :=
  ⟨by decide, by decide,
   c2_rejection_response { CreateConfig with blockedIPs := ["203.0.113.50"] } []
     ⟨"203.0.113.50, 10.0.0.1", "", "", "10.0.0.1:80"⟩ (by decide) (by decide)⟩

/-- Claim C3 (code bug): ServeHTTP never records anything in the cache
and never consults it.  At the failing input, the first request from
203.0.113.7 is forwarded and leaves the cache empty, and after the rule
sets are mutated to block that address, an identical request — within
any TTL window — is rejected rather than served from the cache with the
first outcome. -/
theorem c3_cache_unused_bug :
    (ServeHTTP CreateConfig [] ⟨"", "", "", "203.0.113.7:1234"⟩).1.nextCalled = true ∧
    (ServeHTTP CreateConfig [] ⟨"", "", "", "203.0.113.7:1234"⟩).2 = [] ∧
    (ServeHTTP { CreateConfig with blockedIPs := ["203.0.113.7"] }
        (ServeHTTP CreateConfig [] ⟨"", "", "", "203.0.113.7:1234"⟩).2
        ⟨"", "", "", "203.0.113.7:1234"⟩).1.nextCalled = false := by decide

/-- Counterexample to claim C4: with X-Forwarded-For "not-an-ip" (no
segment validates as an address) and a valid X-Real-IP, getClientIP
returns the invalid text instead of falling through. -/
theorem c4_counterexample :
    goParseIP "not-an-ip" = none ∧
    getClientIP ⟨"not-an-ip", "203.0.113.50", "", "10.0.0.1:80"⟩ = "not-an-ip" ∧
    ¬ ("not-an-ip" = "203.0.113.50") := by decide

/-- Amended claim C4: getClientIP returns the trimmed first comma
segment of X-Forwarded-For whenever that header is nonempty, with no
validation and no fall-through; else the trimmed X-Real-IP if nonempty;
else the trimmed CF-Connecting-IP if nonempty; else the peer address
with the port split off when possible, the raw peer address otherwise;
else the empty string. -/
theorem c4_amended_resolution_order (req : Request) :
    getClientIP req = specResolveClient req := by
  unfold getClientIP specResolveClient clientIPFromXFF
  by_cases hx : req.xForwardedFor == ""
  · simp [hx]
  · cases h : splitOnChar ',' req.xForwardedFor.data with
    | nil => exact absurd h (splitOnChar_ne_nil _ _)
    | cons g gs => simp [hx, h]

/-- Claim C5 (code bug): New never fails — it returns a constructed
instance with a nil error for a missing configuration, a missing
downstream handler, and out-of-range status codes 200 and 600 alike
(and, vacuously, succeeds for 403 and 500). -/
theorem c5_new_never_fails :
    (New none (some CreateConfig) "blockip-test").isOk = true ∧
    (New (some ()) none "blockip-test").isOk = true ∧
    (New (some ()) (some { CreateConfig with statusCode := 200 }) "blockip-test").isOk = true ∧
    (New (some ()) (some { CreateConfig with statusCode := 600 }) "blockip-test").isOk = true ∧
    (New (some ()) (some CreateConfig) "blockip-test").isOk = true ∧
    (New (some ()) (some { CreateConfig with statusCode := 500 }) "blockip-test").isOk = true := by
  decide

/-- Counterexample to claim C6: loading does succeed, but the malformed
exact entry "not-an-ip" does contribute a match — a request whose
resolved address equals that text is rejected. -/
theorem c6_counterexample :
    goParseIP "not-an-ip" = none ∧
    goParseCIDR "10.0.0.0/99" = none ∧
    (ServeHTTP { CreateConfig with
        blockedIPs := ["not-an-ip"], blockedCIDRs := ["10.0.0.0/99"] } []
      ⟨"not-an-ip", "", "", ""⟩).1 = ⟨false, [403], ["Access Denied"]⟩ := by decide

/-- Amended claim C6: loading always succeeds, and a malformed CIDR
entry never contributes a match for any address; a malformed exact
entry, however, matches precisely the client-address string literally
equal to it. -/
theorem c6_amended_malformed_entries (next : Option Unit) (config : Option Config)
    (name ip cidr : String) (h : goParseCIDR cidr = none) :
    (New next config name).isOk = true ∧ matchCIDR ip cidr = false :=
  ⟨rfl, matchCIDR_eq_false_of_parse ip cidr (Or.inr h)⟩

/-- Witness for C6 amended: the malformed range 10.0.0.0/99 fails to
parse and matches no address. -/
theorem c6_amended_malformed_entries_witness :
    goParseCIDR "10.0.0.0/99" = none ∧
    ((New none none "blockip-test").isOk = true ∧
      matchCIDR "10.0.0.1" "10.0.0.0/99" = false) :=
  ⟨by decide,
   c6_amended_malformed_entries none none "blockip-test" "10.0.0.1" "10.0.0.0/99" (by decide)⟩

/-- Counterexample to claim C7: with the empty string configured as a
blocked exact entry, an unidentifiable client (empty resolved address)
is rejected, not forwarded. -/
theorem c7_counterexample :
    getClientIP ⟨"", "", "", ""⟩ = "" ∧
    (ServeHTTP { CreateConfig with blockedIPs := [""] } []
      ⟨"", "", "", ""⟩).1.nextCalled = false := by decide

/-- Amended claim C7: a request whose resolved client address is empty is
forwarded provided the blocked exact list does not contain the empty
string (or the whitelist exact list does); the empty address never
matches any CIDR entry. -/
theorem c7_amended_fail_open (cfg : Config) (cache : IPCacheMap) (req : Request)
    (h : getClientIP req = "")
    (hsafe : "" ∉ cfg.blockedIPs ∨ "" ∈ cfg.whitelistIPs) :
    (ServeHTTP cfg cache req).1 = ⟨true, [], []⟩ := by
  have hcidr : ∀ c : String, matchCIDR "" c = false := fun c =>
    matchCIDR_eq_false_of_parse "" c (Or.inl rfl)
  rcases hsafe with hb | hw
  · have hB : isBlocked cfg "" = false := by
      simp only [isBlocked, Bool.or_eq_false_iff]
      constructor
      · simp only [List.any_eq_false, beq_iff_eq]
        intro e he heq
        exact hb (heq ▸ he)
      · simp [List.any_eq_false, hcidr]
    cases hW : isWhitelisted cfg "" <;> simp [ServeHTTP, h, hW, hB]
  · have hW : isWhitelisted cfg "" = true := by
      simp only [isWhitelisted, Bool.or_eq_true, List.any_eq_true, beq_iff_eq]
      exact Or.inl ⟨"", hw, rfl⟩
    simp [ServeHTTP, h, hW]

/-- Witness for C7 amended: no headers, empty peer address, default
configuration — the request is forwarded. -/
theorem c7_amended_fail_open_witness :
    getClientIP ⟨"", "", "", ""⟩ = "" ∧
    (ServeHTTP CreateConfig [] ⟨"", "", "", ""⟩).1 = ⟨true, [], []⟩ :=
  ⟨by decide, c7_amended_fail_open CreateConfig [] ⟨"", "", "", ""⟩ (by decide)
    (Or.inl (by simp [CreateConfig]))⟩

/-- Claim C8: the request path is total — every request produces exactly
the forward trace or exactly the single-write rejection trace, and
matchCIDR answers false instead of faulting whenever the address or the
CIDR fails to parse. -/
theorem c8_total_no_fault :
    (∀ ip cidr : String,
        goParseIP ip = none ∨ goParseCIDR cidr = none → matchCIDR ip cidr = false) ∧
    (∀ (cfg : Config) (cache : IPCacheMap) (req : Request),
        (ServeHTTP cfg cache req).1 = ⟨true, [], []⟩ ∨
        (ServeHTTP cfg cache req).1 = ⟨false, [cfg.statusCode], [cfg.message]⟩) := by
  refine ⟨matchCIDR_eq_false_of_parse, ?_⟩
  intro cfg cache req
  by_cases hW : isWhitelisted cfg (getClientIP req) <;>
    by_cases hB : isBlocked cfg (getClientIP req) <;>
      simp [ServeHTTP, hW, hB]

/-- Witness for C8: the malformed pair ("not-an-ip", "10.0.0.0/99") is a
non-match, and a concrete request yields one of the two traces. -/
theorem c8_total_no_fault_witness :
    matchCIDR "not-an-ip" "10.0.0.0/99" = false ∧
    ((ServeHTTP CreateConfig [] ⟨"not-an-ip", "", "", ""⟩).1 = ⟨true, [], []⟩ ∨
      (ServeHTTP CreateConfig [] ⟨"not-an-ip", "", "", ""⟩).1 =
        ⟨false, [CreateConfig.statusCode], [CreateConfig.message]⟩) :=
  ⟨c8_total_no_fault.1 "not-an-ip" "10.0.0.0/99" (Or.inl (by decide)),
   c8_total_no_fault.2 CreateConfig [] ⟨"not-an-ip", "", "", ""⟩⟩

/-- Claim C9: exact-address matching is literal string comparison — a
rule set matches an address exactly when the address string equals an
exact entry character for character or a CIDR entry contains it; hence
"::1" and "0:0:0:0:0:0:0:1" do not match each other, a v4-mapped spelling
does not match the dotted spelling, and an arbitrary non-address string
equal to an entry does match. -/
theorem c9_exact_match_is_literal :
    (∀ (cfg : Config) (ip : String),
        isBlocked cfg ip = true ↔
          (∃ e ∈ cfg.blockedIPs, ip = e) ∨
          ∃ c ∈ cfg.blockedCIDRs, matchCIDR ip c = true) ∧
    (∀ (cfg : Config) (ip : String),
        isWhitelisted cfg ip = true ↔
          (∃ e ∈ cfg.whitelistIPs, ip = e) ∨
          ∃ c ∈ cfg.whitelistCIDRs, matchCIDR ip c = true) ∧
    isBlocked { CreateConfig with blockedIPs := ["::1"] } "0:0:0:0:0:0:0:1" = false ∧
    isBlocked { CreateConfig with blockedIPs := ["::1"] } "::1" = true ∧
    isWhitelisted { CreateConfig with whitelistIPs := ["192.0.2.1"] } "::ffff:192.0.2.1" = false ∧
    isBlocked { CreateConfig with blockedIPs := ["not-an-ip"] } "not-an-ip" = true := by
  refine ⟨?_, ?_, by decide, by decide, by decide, by decide⟩
  · intro cfg ip
    simp [isBlocked, List.any_eq_true, beq_iff_eq]
  · intro cfg ip
    simp [isWhitelisted, List.any_eq_true, beq_iff_eq]

/-- Claim C10: the admission decision is a function of the configuration
and the request alone — two ServeHTTP calls with the same configuration
and request produce the same trace under arbitrary cache states, and the
cache state is never changed, so no request history can influence any
decision. -/
theorem c10_decision_history_independent (cfg : Config)
    (cache1 cache2 : IPCacheMap) (req : Request) :
    (ServeHTTP cfg cache1 req).1 = (ServeHTTP cfg cache2 req).1 ∧
    (ServeHTTP cfg cache1 req).2 = cache1 := by
  by_cases hW : isWhitelisted cfg (getClientIP req) <;>
    by_cases hB : isBlocked cfg (getClientIP req) <;>
      simp [ServeHTTP, hW, hB]

end BlockIpPlugin
